import Mathlib

/-!
The module `api.js` of spas-spreadsheets.

A shallow embedding of `src/api.js` (the link extractor `getLinkByType`, the cell
fetcher `getCells`, exported as `worksheet`, and the aggregator `getWorksheets`,
exported as `worksheets`) and theorems about it.

Modelling conventions.

* A JavaScript property that holds a string or is absent (`undefined`) is an
  `Option String`; an absent sub-object is `none` as well. Reading a property of
  `undefined` throws a `TypeError`, modelled by `Except JSError`.
* The functions talk to the outside world through the HTTP collaborator
  (`http.request`), `console.error` and the caller's callback. A run of an
  operation is the sequence of these events, in program order, together with
  the final state of the caller's `params` object (both operations assign to
  `params.url`). An exception that nothing catches ends the run.
* The HTTP collaborator is a function from the request to its reply: it calls
  its callback once, with an error or with a decoded body.
-/

set_option autoImplicit false

namespace SpasSpreadsheets

/-! ## Constants (lines 7-10) -/

def LIST_FEED_SCHEMA : String := "http://schemas.google.com/spreadsheets/2006#listfeed"
def CELL_FEED_SCHEMA : String := "http://schemas.google.com/spreadsheets/2006#cellsfeed"
def VISUALIZATION_SCHEMA : String :=
  "http://schemas.google.com/visualization/2008#visualizationApi"
def EXPORT_CSV_SCHEMA : String := "http://schemas.google.com/spreadsheets/2006#exportcsv"

/-! ## Data model -/

/-- Exceptions the JavaScript runtime raises in this module. -/
inductive JSError where
  | typeError
  | referenceError
deriving DecidableEq, Repr

/-- One element of an entry's `link` array: a `{rel, href}` pair. -/
structure Link where
  rel : String
  href : String
deriving DecidableEq, Repr

/-- An object read through its `$t` property (text content); `t = none` is an
absent `$t`. -/
structure TextNode where
  t : Option String
deriving DecidableEq, Repr

/-- The `gs$cell` sub-object of a cell entry. -/
structure GsCell where
  row : Option String
  col : Option String
  inputValue : Option String
  t : Option String
deriving DecidableEq, Repr

/-- An element of `feed.entry`, as decoded by the collaborator. -/
structure RawEntry where
  updated : Option TextNode
  gsCell : Option GsCell
  link : List Link
deriving DecidableEq, Repr

/-- An element of `feed.author`. -/
structure RawAuthor where
  name : Option TextNode
  email : Option TextNode
deriving DecidableEq, Repr

/-- The `feed` object of a decoded response. -/
structure RawFeed where
  updated : Option TextNode
  title : Option TextNode
  author : Option (List RawAuthor)
  entry : Option (List RawEntry)
deriving DecidableEq, Repr

/-- A decoded response body (`results`). -/
structure Response where
  feed : Option RawFeed
deriving DecidableEq, Repr

/-- The object literal of lines 69-75. -/
structure Cell where
  updated : Option String
  row : Option String
  col : Option String
  inputValue : Option String
  value : Option String
deriving DecidableEq, Repr

/-- The object literal of lines 82-85. -/
structure Author where
  name : Option String
  email : Option String
deriving DecidableEq, Repr

/-- The object literal of lines 78-88. -/
structure Feed where
  updated : Option String
  title : Option String
  author : List Author
  entry : List Cell
deriving DecidableEq, Repr

/-- The `params` hash. `options` holds the query options (`min-row`, `sq`, ...)
that the module never reads and hands on untouched. -/
structure Params where
  url : Option String
  id : Option String
  worksheet : Option String
  visibility : Option String
  projection : Option String
  options : List (String × String)
deriving DecidableEq, Repr

/-- The `credentials` hash, handed on untouched. -/
structure Credentials where
  fields : List (String × String)
deriving DecidableEq, Repr

/-- A (truthy) error value reported by the HTTP collaborator. -/
structure HttpError where
  message : String
deriving DecidableEq, Repr

/-- What the HTTP collaborator passes to its callback: `(error, results)`. -/
inductive HttpReply where
  | failure (error : HttpError)
  | success (results : Response)
deriving DecidableEq, Repr

/-- The HTTP collaborator `http.request(params, credentials, cb)`. -/
abbrev HttpCollaborator := Params → Credentials → HttpReply

/-- Observable events of a run; `ρ` is the type of the result the callback
receives. -/
inductive Event (ρ : Type) where
  | request (params : Params) (credentials : Credentials)
  | consoleError (error : HttpError)
  | callback (error : Option HttpError) (result : Option ρ)
  | raise (e : JSError)
deriving DecidableEq, Repr

/-- A run of an operation: the caller's `params` object afterwards and the
events in order. -/
structure Run (ρ : Type) where
  params : Params
  events : List (Event ρ)

/-! ## JavaScript primitives used by the module -/

/-- Truthiness of a string-or-undefined value: `undefined` and `''` are falsy. -/
def truthy : Option String → Bool
  | none => false
  | some s => s != ""

/-- The expression `a || b` with a string literal `b`. -/
def jsOr (a : Option String) (b : String) : Option String :=
  if truthy a then a else some b

/-- String conversion of an array element inside `join`: `undefined` gives `''`. -/
def joinItem : Option String → String
  | none => ""
  | some s => s

/-- The loop of `join`: the result so far, then the separator and the next
element for every remaining element. -/
def joinFrom (acc : String) (sep : String) : List (Option String) → String
  | [] => acc
  | x :: rest => joinFrom (acc ++ sep ++ joinItem x) sep rest

/-- The method `Array.prototype.join(sep)`. -/
def join : List (Option String) → String → String
  | [], _ => ""
  | x :: rest, sep => joinFrom (joinItem x) sep rest

/-- The method `Array.prototype.map` with a callback that may throw: elements
are visited in order and the first exception ends the traversal. -/
def mapE {α β : Type} (f : α → Except JSError β) : List α → Except JSError (List β)
  | [] => .ok []
  | x :: xs =>
    match f x with
    | .error e => .error e
    | .ok y =>
      match mapE f xs with
      | .error e => .error e
      | .ok ys => .ok (y :: ys)

/-- The expression `x.$t` where `x` itself may be `undefined`. -/
def readText : Option TextNode → Except JSError (Option String)
  | none => .error .typeError
  | some node => .ok node.t

/-! ## `getLinkByType` (lines 18-26) -/

/-- The `for` loop of lines 20-25 over the remaining links. -/
def getLinkByTypeLoop (type : String) : List Link → Option String
  | [] => none
  | link :: rest => if link.rel = type then some link.href else getLinkByTypeLoop type rest

/-- Return the link to a feed by schema type; `none` is `undefined`. -/
def getLinkByType (entry : RawEntry) (type : String) : Option String :=
  getLinkByTypeLoop type entry.link

/-! ## `getCells` (lines 45-92) -/

/-- Lines 46-59: the assignment to `params.url`. -/
def getCellsParams (params : Params) : Params :=
  if !truthy params.url then
    let urlSegments : List (Option String) := [some "https://spreadsheets.google.com/feeds"]
    let urlSegments := urlSegments ++ [some "cells"]
    let urlSegments := urlSegments ++ [params.id]
    let urlSegments := urlSegments ++ [params.worksheet]
    let urlSegments := urlSegments ++ [jsOr params.visibility "public"]
    let urlSegments := urlSegments ++ [jsOr params.projection "full"]
    { params with url := some (join urlSegments "/") }
  else params

/-- Lines 68-76: the callback of `feed.entry.map`. -/
def flattenCell (cell : RawEntry) : Except JSError Cell :=
  match cell.updated with
  | none => .error .typeError
  | some updated =>
    match cell.gsCell with
    | none => .error .typeError
    | some gs =>
      .ok { updated := updated.t, row := gs.row, col := gs.col,
            inputValue := gs.inputValue, value := gs.t }

/-- Lines 81-86: the callback of `feed.author.map`. -/
def flattenAuthor (author : RawAuthor) : Except JSError Author :=
  match readText author.name with
  | .error e => .error e
  | .ok name =>
    match readText author.email with
    | .error e => .error e
    | .ok email => .ok { name := name, email := email }

/-- Lines 67-88: from the decoded body to the record, in evaluation order. -/
def flatten (results : Response) : Except JSError Feed :=
  match results.feed with
  | none => .error .typeError
  | some feed =>
    match feed.entry with
    | none => .error .typeError
    | some entries =>
      match mapE flattenCell entries with
      | .error e => .error e
      | .ok cells =>
        match readText feed.updated with
        | .error e => .error e
        | .ok updated =>
          match readText feed.title with
          | .error e => .error e
          | .ok title =>
            match feed.author with
            | none => .error .typeError
            | some authors =>
              match mapE flattenAuthor authors with
              | .error e => .error e
              | .ok author =>
                .ok { updated := updated, title := title, author := author, entry := cells }

/-- Retrieves the cell-based feed of a worksheet. -/
def getCells (params : Params) (credentials : Credentials) (http : HttpCollaborator) :
    Run Feed :=
  let params := getCellsParams params
  match http params credentials with
  | .failure error =>
    ⟨params, [.request params credentials, .consoleError error, .callback (some error) none]⟩
  | .success results =>
    match flatten results with
    | .error e => ⟨params, [.request params credentials, .raise e]⟩
    | .ok feed => ⟨params, [.request params credentials, .callback none (some feed)]⟩

/-! ## `getWorksheets` (lines 100-124) -/

/-- A function called as `f(params, credentials, callback)` that delivers a feed. -/
abbrev Fetcher := Params → Credentials → HttpCollaborator → Run Feed

/-- Every top-level name of the module: the two required libraries, the four
schema constants and the three functions. -/
def declaredNames : List String :=
  ["http", "async", "LIST_FEED_SCHEMA", "CELL_FEED_SCHEMA", "VISUALIZATION_SCHEMA",
   "EXPORT_CSV_SCHEMA", "getLinkByType", "getCells", "getWorksheets"]

/-- The bindings of the module that are cell fetchers. -/
def moduleScope : List (String × Fetcher) := [("getCells", getCells)]

/-- Evaluation of an identifier in call position `name(copy, credentials, done)`:
an undeclared name raises a `ReferenceError` (the module is in strict mode and
the name is no global of the runtime). The declared names that are not cell
fetchers are never called in this position by the module. -/
def resolveFetcher (scope : List (String × Fetcher)) (name : String) :
    Except JSError Fetcher :=
  match scope.lookup name with
  | some f => .ok f
  | none => if name ∈ declaredNames then .error .typeError else .error .referenceError

/-- Lines 118-119: the shallow copy of `params` whose `url` is the entry's
cell-feed link. -/
def worksheetCopy (params : Params) (entry : RawEntry) : Params :=
  let copy := params
  { copy with url := getLinkByType entry CELL_FEED_SCHEMA }

/-- Lines 117-121: the function applied by `async.map` to one worksheet entry.
Its events are those of the fetcher it calls; the fetcher's callback is `done`. -/
def worksheetIteratee (scope : List (String × Fetcher)) (params : Params)
    (credentials : Credentials) (http : HttpCollaborator) (entry : RawEntry) :
    Except JSError (List (Event Feed)) :=
  let copy := worksheetCopy params entry
  match resolveFetcher scope "getWorksheet" with
  | .error e => .error e
  | .ok getWorksheet => .ok (getWorksheet copy credentials http).events

/-- State of `async.map` while it walks the array. -/
structure MapState where
  events : List (Event (List (Option Feed)))
  results : List (Option Feed)
  called : Bool
  raised : Bool

/-- What `async.map` does with the events of one branch: requests and logging
are the branch's own; `done(err, v)` stores `v` and, on the first error, calls
the final callback with the error and the results so far; an exception
propagates. -/
def absorb (st : MapState) : List (Event Feed) → MapState
  | [] => st
  | .request p c :: rest => absorb { st with events := st.events ++ [.request p c] } rest
  | .consoleError e :: rest => absorb { st with events := st.events ++ [.consoleError e] } rest
  | .callback err v :: rest =>
    let results := st.results ++ [v]
    match err with
    | none => absorb { st with results := results } rest
    | some e =>
      if st.called then absorb { st with results := results } rest
      else absorb { st with results := results, called := true,
                            events := st.events ++ [.callback (some e) (some results)] } rest
  | .raise e :: _ => { st with events := st.events ++ [.raise e], raised := true }

/-- The loop of `async.map` over the array: the iteratee is applied to the
elements in order; an exception it throws leaves the loop. -/
def asyncMapLoop (iteratee : RawEntry → Except JSError (List (Event Feed))) :
    List RawEntry → MapState → MapState
  | [], st => st
  | entry :: rest, st =>
    match iteratee entry with
    | .error e => { st with events := st.events ++ [.raise e], raised := true }
    | .ok evs =>
      let st := absorb st evs
      if st.raised then st else asyncMapLoop iteratee rest st

/-- The call `async.map(entries, iteratee, callback)` of the `async` library,
with a collaborator that replies before the next branch starts: once every
branch has called `done` without an error the final callback receives the
results in the order of the array; for an empty array it receives `[]`. -/
def asyncMap (iteratee : RawEntry → Except JSError (List (Event Feed)))
    (entries : List RawEntry) : List (Event (List (Option Feed))) :=
  let st := asyncMapLoop iteratee entries ⟨[], [], false, false⟩
  if st.raised || st.called then st.events
  else st.events ++ [.callback none (some st.results)]

/-- Lines 101-107: the assignment to `params.url`. -/
def getWorksheetsParams (params : Params) : Params :=
  let urlSegments : List (Option String) := [some "https://spreadsheets.google.com/feeds"]
  let urlSegments := urlSegments ++ [some "worksheets"]
  let urlSegments := urlSegments ++ [params.id]
  let urlSegments := urlSegments ++ [jsOr params.visibility "public"]
  let urlSegments := urlSegments ++ [jsOr params.projection "full"]
  { params with url := some (join urlSegments "/") }

/-- The body of `getWorksheets` with the module's bindings as a parameter. An
absent `feed.entry` is handed to `async.map`, which treats it as `[]`. -/
def getWorksheetsIn (scope : List (String × Fetcher)) (params : Params)
    (credentials : Credentials) (http : HttpCollaborator) : Run (List (Option Feed)) :=
  let params := getWorksheetsParams params
  match http params credentials with
  | .failure error =>
    ⟨params, [.request params credentials, .consoleError error, .callback (some error) none]⟩
  | .success results =>
    match results.feed with
    | none => ⟨params, [.request params credentials, .raise .typeError]⟩
    | some feed =>
      let entries := feed.entry.getD []
      ⟨params, .request params credentials ::
        asyncMap (worksheetIteratee scope params credentials http) entries⟩

/-- Get all cells from a spreadsheet, grouped by worksheet. -/
def getWorksheets (params : Params) (credentials : Credentials) (http : HttpCollaborator) :
    Run (List (Option Feed)) :=
  getWorksheetsIn moduleScope params credentials http

/-- The URLs of the requests of a run, in order. -/
def requestedUrls {ρ : Type} : List (Event ρ) → List (Option String)
  | [] => []
  | .request p _ :: rest => p.url :: requestedUrls rest
  | _ :: rest => requestedUrls rest

/-! ## Vocabulary of the statements -/

/-- The cell record whose five fields are read from an entry, an absent leaf
being `undefined`. -/
def cellRecord (cell : RawEntry) : Cell :=
  { updated := cell.updated.bind TextNode.t,
    row := cell.gsCell.bind GsCell.row,
    col := cell.gsCell.bind GsCell.col,
    inputValue := cell.gsCell.bind GsCell.inputValue,
    value := cell.gsCell.bind GsCell.t }

/-- The author record whose two fields are read from an author. -/
def authorRecord (author : RawAuthor) : Author :=
  { name := author.name.bind TextNode.t, email := author.email.bind TextNode.t }

/-- The feed record read from a `feed` object, lists mapped element by element. -/
def feedRecord (feed : RawFeed) : Feed :=
  { updated := feed.updated.bind TextNode.t,
    title := feed.title.bind TextNode.t,
    author := (feed.author.getD []).map authorRecord,
    entry := (feed.entry.getD []).map cellRecord }

/-- Both sub-objects of a cell entry (`updated`, `gs$cell`) are there. -/
def cellReadable (cell : RawEntry) : Bool :=
  cell.updated.isSome && cell.gsCell.isSome

/-- Both sub-objects of an author (`name`, `email`) are there. -/
def authorReadable (author : RawAuthor) : Bool :=
  author.name.isSome && author.email.isSome

/-- Every object the flattening reads a property of is there: `feed`, its
`updated`, `title`, `author` and `entry`, and the sub-objects of every author
and entry. Leaves (`$t`, `row`, `col`, `inputValue`) may still be absent. -/
def readable (results : Response) : Bool :=
  match results.feed with
  | none => false
  | some feed =>
    feed.updated.isSome && feed.title.isSome &&
    (match feed.author with
     | none => false
     | some authors => authors.all authorReadable) &&
    (match feed.entry with
     | none => false
     | some entries => entries.all cellReadable)

/-! ## Sample inputs -/

/-- Params naming a spreadsheet and a worksheet, everything else omitted. -/
def sampleParams : Params :=
  { url := none, id := some "abc", worksheet := some "1", visibility := none,
    projection := some "basic", options := [("min-row", "2")] }

/-- The same params with a URL supplied by the caller. -/
def sampleParamsWithUrl : Params :=
  { sampleParams with url := some "https://example.org/feed" }

/-- Sample credentials. -/
def sampleCredentials : Credentials := { fields := [("token", "s3cret")] }

/-- A collaborator whose every request fails. -/
def failingHttp : HttpCollaborator := fun _ _ => .failure { message := "ECONNRESET" }

/-- A collaborator that answers every request with the same body. -/
def constHttp (results : Response) : HttpCollaborator := fun _ _ => .success results

/-- A cell feed with one author and two cells, every field present. -/
def sampleCellFeed : Response :=
  { feed := some {
      updated := some { t := some "2016-01-02T03:04:05Z" },
      title := some { t := some "Sheet1" },
      author := some [{ name := some { t := some "Ann" }, email := some { t := some "ann@example.org" } }],
      entry := some
        [{ updated := some { t := some "2016-01-01" },
           gsCell := some { row := some "1", col := some "1", inputValue := some "=1+1", t := some "2" },
           link := [] },
         { updated := some { t := some "2016-01-02" },
           gsCell := some { row := some "1", col := some "2", inputValue := some "x", t := some "x" },
           link := [] }] } }

/-- The sample cell feed without `feed.title`. -/
def cellFeedWithoutTitle : Response :=
  { feed := some {
      updated := some { t := some "2016-01-02T03:04:05Z" },
      title := none,
      author := some [],
      entry := some [] } }

/-- A cell feed whose only cell has no `row` in its `gs$cell`. -/
def cellFeedWithoutRow : Response :=
  { feed := some {
      updated := some { t := some "2016-01-02T03:04:05Z" },
      title := some { t := some "Sheet1" },
      author := some [],
      entry := some
        [{ updated := some { t := some "2016-01-01" },
           gsCell := some { row := none, col := some "1", inputValue := some "x", t := some "x" },
           link := [] }] } }

/-- A worksheet list with one worksheet that carries a cell-feed link. -/
def sampleWorksheetList : Response :=
  { feed := some {
      updated := some { t := some "2016-01-02T03:04:05Z" },
      title := some { t := some "Book" },
      author := some [],
      entry := some
        [{ updated := some { t := some "2016-01-01" }, gsCell := none,
           link := [{ rel := LIST_FEED_SCHEMA, href := "https://example.org/list/1" },
                    { rel := CELL_FEED_SCHEMA, href := "https://example.org/cells/1" }] }] } }

/-- A worksheet entry with a list-feed link only. -/
def entryWithoutCellLink : RawEntry :=
  { updated := some { t := some "2016-01-01" }, gsCell := none,
    link := [{ rel := LIST_FEED_SCHEMA, href := "https://example.org/list/1" }] }

/-- A worksheet list whose only worksheet has no cell-feed link. -/
def worksheetListWithoutCellLink : Response :=
  { feed := some {
      updated := some { t := some "2016-01-02T03:04:05Z" },
      title := some { t := some "Book" },
      author := some [],
      entry := some [entryWithoutCellLink] } }

/-- A collaborator that serves the sample worksheet list at the worksheets URL
of spreadsheet `abc`, the sample cell feed at the worksheet's cell-feed link,
and fails elsewhere. -/
def sampleHttp : HttpCollaborator := fun params _ =>
  if params.url = some "https://spreadsheets.google.com/feeds/worksheets/abc/public/basic" then
    .success sampleWorksheetList
  else if params.url = some "https://example.org/cells/1" then
    .success sampleCellFeed
  else .failure { message := "404" }

/-- The record that flattening the sample cell feed gives. -/
def sampleFeedRecord : Feed :=
  { updated := some "2016-01-02T03:04:05Z", title := some "Sheet1",
    author := [{ name := some "Ann", email := some "ann@example.org" }],
    entry := [{ updated := some "2016-01-01", row := some "1", col := some "1",
                inputValue := some "=1+1", value := some "2" },
              { updated := some "2016-01-02", row := some "1", col := some "2",
                inputValue := some "x", value := some "x" }] }

/-! ## Lemmas -/

theorem cells_root_literal :
    "https://spreadsheets.google.com/feeds" ++ "/" ++ "cells" ++ "/" =
      "https://spreadsheets.google.com/feeds/cells/" := by decide

theorem jsOr_some (a : Option String) (v : String) (d : String)
    (h : a = some v ∧ v ≠ "" ∨ a = none ∧ v = d) : jsOr a d = some v := by
  rcases h with ⟨rfl, hv⟩ | ⟨rfl, rfl⟩
  · simp [jsOr, truthy, hv]
  · simp [jsOr, truthy]

theorem getCells_failure (params : Params) (credentials : Credentials) (http : HttpCollaborator)
    (error : HttpError) (h : http (getCellsParams params) credentials = .failure error) :
    getCells params credentials http =
      ⟨getCellsParams params, [.request (getCellsParams params) credentials,
        .consoleError error, .callback (some error) none]⟩ := by
  simp [getCells, h]

theorem getCells_raise (params : Params) (credentials : Credentials) (http : HttpCollaborator)
    (results : Response) (e : JSError)
    (h : http (getCellsParams params) credentials = .success results)
    (hf : flatten results = .error e) :
    getCells params credentials http =
      ⟨getCellsParams params, [.request (getCellsParams params) credentials, .raise e]⟩ := by
  simp [getCells, h, hf]

theorem getCells_ok (params : Params) (credentials : Credentials) (http : HttpCollaborator)
    (results : Response) (feed : Feed)
    (h : http (getCellsParams params) credentials = .success results)
    (hf : flatten results = .ok feed) :
    getCells params credentials http =
      ⟨getCellsParams params, [.request (getCellsParams params) credentials,
        .callback none (some feed)]⟩ := by
  simp [getCells, h, hf]

theorem getCells_requestedUrls (params : Params) (credentials : Credentials) (http : HttpCollaborator) :
    requestedUrls (getCells params credentials http).events = [(getCellsParams params).url] := by
  cases h : http (getCellsParams params) credentials with
  | failure e => simp [getCells_failure _ _ _ _ h, requestedUrls]
  | success r =>
    cases hf : flatten r with
    | error e => simp [getCells_raise _ _ _ _ _ h hf, requestedUrls]
    | ok f => simp [getCells_ok _ _ _ _ _ h hf, requestedUrls]

theorem resolveFetcher_getWorksheet :
    resolveFetcher moduleScope "getWorksheet" = .error .referenceError := by
  simp [resolveFetcher, moduleScope, List.lookup, declaredNames]

theorem worksheetIteratee_raises (params : Params) (credentials : Credentials)
    (http : HttpCollaborator) (entry : RawEntry) :
    worksheetIteratee moduleScope params credentials http entry = .error .referenceError := by
  simp [worksheetIteratee, resolveFetcher_getWorksheet]

theorem asyncMap_nil (iteratee : RawEntry → Except JSError (List (Event Feed))) :
    asyncMap iteratee [] = [.callback none (some [])] := by
  simp [asyncMap, asyncMapLoop]

theorem asyncMap_cons_raises (iteratee : RawEntry → Except JSError (List (Event Feed)))
    (entry : RawEntry) (rest : List RawEntry) (e : JSError) (h : iteratee entry = .error e) :
    asyncMap iteratee (entry :: rest) = [.raise e] := by
  simp [asyncMap, asyncMapLoop, h]

theorem getWorksheets_failure (params : Params) (credentials : Credentials)
    (http : HttpCollaborator) (error : HttpError)
    (h : http (getWorksheetsParams params) credentials = .failure error) :
    getWorksheets params credentials http =
      ⟨getWorksheetsParams params, [.request (getWorksheetsParams params) credentials,
        .consoleError error, .callback (some error) none]⟩ := by
  simp [getWorksheets, getWorksheetsIn, h]

theorem getWorksheets_no_feed (params : Params) (credentials : Credentials)
    (http : HttpCollaborator) (results : Response)
    (h : http (getWorksheetsParams params) credentials = .success results)
    (hf : results.feed = none) :
    getWorksheets params credentials http =
      ⟨getWorksheetsParams params, [.request (getWorksheetsParams params) credentials,
        .raise .typeError]⟩ := by
  simp [getWorksheets, getWorksheetsIn, h, hf]

theorem getWorksheets_no_entries (params : Params) (credentials : Credentials)
    (http : HttpCollaborator) (results : Response) (feed : RawFeed)
    (h : http (getWorksheetsParams params) credentials = .success results)
    (hf : results.feed = some feed) (he : feed.entry.getD [] = []) :
    getWorksheets params credentials http =
      ⟨getWorksheetsParams params, [.request (getWorksheetsParams params) credentials,
        .callback none (some [])]⟩ := by
  simp [getWorksheets, getWorksheetsIn, h, hf, he, asyncMap_nil]

theorem getWorksheets_some_entry (params : Params) (credentials : Credentials)
    (http : HttpCollaborator) (results : Response) (feed : RawFeed)
    (entry : RawEntry) (rest : List RawEntry)
    (h : http (getWorksheetsParams params) credentials = .success results)
    (hf : results.feed = some feed) (he : feed.entry = some (entry :: rest)) :
    getWorksheets params credentials http =
      ⟨getWorksheetsParams params, [.request (getWorksheetsParams params) credentials,
        .raise .referenceError]⟩ := by
  simp [getWorksheets, getWorksheetsIn, h, hf, he,
    asyncMap_cons_raises _ entry rest _ (worksheetIteratee_raises _ _ _ entry)]

theorem getWorksheets_requestedUrls (params : Params) (credentials : Credentials)
    (http : HttpCollaborator) :
    requestedUrls (getWorksheets params credentials http).events =
      [(getWorksheetsParams params).url] := by
  cases h : http (getWorksheetsParams params) credentials with
  | failure e => simp [getWorksheets_failure _ _ _ _ h, requestedUrls]
  | success r =>
    cases hf : r.feed with
    | none => simp [getWorksheets_no_feed _ _ _ _ h hf, requestedUrls]
    | some feed =>
      cases he : feed.entry with
      | none =>
        simp [getWorksheets_no_entries _ _ _ _ feed h hf (by simp [he]), requestedUrls]
      | some es =>
        cases es with
        | nil => simp [getWorksheets_no_entries _ _ _ _ feed h hf (by simp [he]), requestedUrls]
        | cons x xs => simp [getWorksheets_some_entry _ _ _ _ feed x xs h hf he, requestedUrls]

theorem mapE_ok {α β : Type} (f : α → Except JSError β) (g : α → β) (xs : List α)
    (h : ∀ x ∈ xs, f x = .ok (g x)) : mapE f xs = .ok (xs.map g) := by
  induction xs with
  | nil => rfl
  | cons x xs ih =>
    have hx := h x (List.mem_cons_self _ _)
    have hxs := ih (fun y hy => h y (List.mem_cons_of_mem _ hy))
    simp [mapE, hx, hxs]

theorem mapE_error {α β : Type} (f : α → Except JSError β) (e : JSError) (xs : List α)
    (hall : ∀ x ∈ xs, ∀ e', f x = .error e' → e' = e)
    (hex : ∃ x ∈ xs, ∃ e', f x = .error e') : mapE f xs = .error e := by
  induction xs with
  | nil => simp at hex
  | cons x xs ih =>
    cases hx : f x with
    | error e' =>
      have := hall x (List.mem_cons_self _ _) e' hx
      simp [mapE, hx, this]
    | ok y =>
      have hex' : ∃ x ∈ xs, ∃ e', f x = .error e' := by
        obtain ⟨z, hz, e', he'⟩ := hex
        rcases List.mem_cons.mp hz with rfl | hz
        · rw [hx] at he'; cases he'
        · exact ⟨z, hz, e', he'⟩
      have := ih (fun y hy => hall y (List.mem_cons_of_mem _ hy)) hex'
      simp [mapE, hx, this]

theorem flattenCell_eq (cell : RawEntry) :
    flattenCell cell = if cellReadable cell then .ok (cellRecord cell) else .error .typeError := by
  rcases cell with ⟨_ | u, _ | g, l⟩ <;> simp [flattenCell, cellReadable, cellRecord]

theorem flattenAuthor_eq (author : RawAuthor) :
    flattenAuthor author =
      if authorReadable author then .ok (authorRecord author) else .error .typeError := by
  rcases author with ⟨_ | n, _ | m⟩ <;>
    simp [flattenAuthor, authorReadable, authorRecord, readText]

theorem mapE_flattenCell (entries : List RawEntry) :
    mapE flattenCell entries =
      if entries.all cellReadable then .ok (entries.map cellRecord) else .error .typeError := by
  by_cases h : entries.all cellReadable = true
  · rw [if_pos h]
    apply mapE_ok
    intro x hx
    rw [flattenCell_eq, if_pos (List.all_eq_true.mp h x hx)]
  · rw [if_neg h]
    apply mapE_error
    · intro x _ e' he'
      rw [flattenCell_eq] at he'
      split at he' <;> cases he'
      rfl
    · simp only [List.all_eq_true, not_forall] at h
      obtain ⟨x, hx, hn⟩ := h
      exact ⟨x, hx, .typeError, by rw [flattenCell_eq, if_neg hn]⟩

theorem mapE_flattenAuthor (authors : List RawAuthor) :
    mapE flattenAuthor authors =
      if authors.all authorReadable then .ok (authors.map authorRecord)
      else .error .typeError := by
  by_cases h : authors.all authorReadable = true
  · rw [if_pos h]
    apply mapE_ok
    intro x hx
    rw [flattenAuthor_eq, if_pos (List.all_eq_true.mp h x hx)]
  · rw [if_neg h]
    apply mapE_error
    · intro x _ e' he'
      rw [flattenAuthor_eq] at he'
      split at he' <;> cases he'
      rfl
    · simp only [List.all_eq_true, not_forall] at h
      obtain ⟨x, hx, hn⟩ := h
      exact ⟨x, hx, .typeError, by rw [flattenAuthor_eq, if_neg hn]⟩

theorem flatten_eq (results : Response) (feed : RawFeed) (h : results.feed = some feed) :
    flatten results = if readable results then .ok (feedRecord feed) else .error .typeError := by
  rcases feed with ⟨u, t, a, en⟩
  simp only [flatten, h, readable, feedRecord]
  cases en with
  | none => simp
  | some entries =>
    simp only [mapE_flattenCell]
    by_cases hc : entries.all cellReadable = true
    · simp only [hc, if_true]
      cases u with
      | none => simp [readText]
      | some un =>
        cases t with
        | none => simp [readText]
        | some tn =>
          cases a with
          | none => simp [readText]
          | some authors =>
            simp only [mapE_flattenAuthor, readText]
            by_cases ha : authors.all authorReadable = true
            · simp [ha]
            · simp [ha]
    · simp [hc]

theorem flatten_no_feed (results : Response) (h : results.feed = none) :
    flatten results = .error .typeError := by
  simp [flatten, h]

theorem worksheets_root_literal :
    "https://spreadsheets.google.com/feeds" ++ "/" ++ "worksheets" ++ "/" =
      "https://spreadsheets.google.com/feeds/worksheets/" := by decide

theorem getCellsParams_built (params : Params) (id worksheet visibility projection : String)
    (hurl : truthy params.url = false) (hid : params.id = some id)
    (hws : params.worksheet = some worksheet)
    (hvis : params.visibility = some visibility ∧ visibility ≠ "" ∨
      params.visibility = none ∧ visibility = "public")
    (hproj : params.projection = some projection ∧ projection ≠ "" ∨
      params.projection = none ∧ projection = "full") :
    (getCellsParams params).url =
      some ("https://spreadsheets.google.com/feeds/cells/" ++ id ++ "/" ++ worksheet ++ "/"
        ++ visibility ++ "/" ++ projection) := by
  simp only [getCellsParams, hurl, hid, hws, jsOr_some _ _ _ hvis, jsOr_some _ _ _ hproj]
  simp only [join, joinFrom, joinItem, List.cons_append, List.nil_append, String.append_assoc]
  rw [← cells_root_literal]
  simp only [String.append_assoc, Bool.not_false, if_true]

theorem getWorksheetsParams_built (params : Params) (id visibility projection : String)
    (hid : params.id = some id)
    (hvis : params.visibility = some visibility ∧ visibility ≠ "" ∨
      params.visibility = none ∧ visibility = "public")
    (hproj : params.projection = some projection ∧ projection ≠ "" ∨
      params.projection = none ∧ projection = "full") :
    (getWorksheetsParams params).url =
      some ("https://spreadsheets.google.com/feeds/worksheets/" ++ id ++ "/"
        ++ visibility ++ "/" ++ projection) := by
  simp only [getWorksheetsParams, hid, jsOr_some _ _ _ hvis, jsOr_some _ _ _ hproj]
  simp only [join, joinFrom, joinItem, List.cons_append, List.nil_append, String.append_assoc]
  rw [← worksheets_root_literal]
  simp only [String.append_assoc]

theorem getCellsParams_supplied (params : Params) (h : truthy params.url = true) :
    getCellsParams params = params := by
  simp [getCellsParams, h]

theorem getLinkByTypeLoop_none (type : String) (links : List Link) :
    getLinkByTypeLoop type links = none ↔ ∀ l ∈ links, l.rel ≠ type := by
  induction links with
  | nil => simp [getLinkByTypeLoop]
  | cons l ls ih =>
    by_cases h : l.rel = type
    · simp [getLinkByTypeLoop, h]
    · simp [getLinkByTypeLoop, h, ih]

theorem getLinkByTypeLoop_some (type : String) (links : List Link) (href : String) :
    getLinkByTypeLoop type links = some href ↔
      ∃ (i : Nat) (l : Link), links[i]? = some l ∧ l.rel = type ∧ l.href = href ∧
        ∀ (j : Nat) (l' : Link), j < i → links[j]? = some l' → l'.rel ≠ type := by
  induction links with
  | nil => simp [getLinkByTypeLoop]
  | cons l ls ih =>
    by_cases h : l.rel = type
    · simp only [getLinkByTypeLoop, h, if_true, Option.some.injEq]
      constructor
      · intro hh
        exact ⟨0, l, by simp, h, hh, by intro j l' hj; omega⟩
      · rintro ⟨i, l1, hi, hr, hh, hmin⟩
        cases i with
        | zero =>
          simp at hi
          subst hi
          exact hh
        | succ k =>
          exact absurd h (hmin 0 l (by omega) (by simp))
    · simp only [getLinkByTypeLoop, h, if_false, ih]
      constructor
      · rintro ⟨i, l1, hi, hr, hh, hmin⟩
        refine ⟨i + 1, l1, by simpa using hi, hr, hh, ?_⟩
        intro j l' hj hl'
        cases j with
        | zero =>
          simp at hl'
          subst hl'
          exact h
        | succ k =>
          exact hmin k l' (by omega) (by simpa using hl')
      · rintro ⟨i, l1, hi, hr, hh, hmin⟩
        cases i with
        | zero =>
          simp at hi
          subst hi
          exact absurd hr h
        | succ k =>
          refine ⟨k, l1, by simpa using hi, hr, hh, ?_⟩
          intro j l' hj hl'
          exact hmin (j + 1) l' (by omega) (by simpa using hl')

theorem getCells_params (params : Params) (credentials : Credentials) (http : HttpCollaborator) :
    (getCells params credentials http).params = getCellsParams params := by
  cases h : http (getCellsParams params) credentials with
  | failure e => simp [getCells_failure _ _ _ _ h]
  | success r =>
    cases hf : flatten r with
    | error e => simp [getCells_raise _ _ _ _ _ h hf]
    | ok f => simp [getCells_ok _ _ _ _ _ h hf]

theorem truthy_of_nonempty (url : String) (h : url ≠ "") : truthy (some url) = true := by
  simp [truthy, h]

/-! ## URL construction -/

/-- C1: for params without a url whose id and worksheet are present, the only
request of `getCells` goes to
`https://spreadsheets.google.com/feeds/cells/{id}/{worksheet}/{visibility}/{projection}`,
where the visibility segment is the given non-empty visibility, or `public`
when it is omitted, and the projection segment is the given non-empty
projection, or `full` when it is omitted. -/
theorem getCells_request_url (params : Params) (credentials : Credentials)
    (http : HttpCollaborator) (id worksheet visibility projection : String)
    (hurl : params.url = none) (hid : params.id = some id)
    (hws : params.worksheet = some worksheet)
    (hvis : params.visibility = some visibility ∧ visibility ≠ "" ∨
      params.visibility = none ∧ visibility = "public")
    (hproj : params.projection = some projection ∧ projection ≠ "" ∨
      params.projection = none ∧ projection = "full") :
    requestedUrls (getCells params credentials http).events =
      [some ("https://spreadsheets.google.com/feeds/cells/" ++ id ++ "/" ++ worksheet ++ "/"
        ++ visibility ++ "/" ++ projection)] := by
  rw [getCells_requestedUrls,
    getCellsParams_built params id worksheet visibility projection (by simp [hurl, truthy])
      hid hws hvis hproj]

/-- Instance of `getCells_request_url` at the sample inputs. -/
theorem getCells_request_url_witness :
    requestedUrls (getCells sampleParams sampleCredentials failingHttp).events =
      [some "https://spreadsheets.google.com/feeds/cells/abc/1/public/basic"] :=
  getCells_request_url sampleParams sampleCredentials failingHttp "abc" "1" "public" "basic"
    rfl rfl rfl (Or.inr ⟨rfl, rfl⟩) (Or.inl ⟨rfl, by decide⟩)

/-- C2: for params whose id is present, the first request of `getWorksheets`,
the worksheet-list request, goes to
`https://spreadsheets.google.com/feeds/worksheets/{id}/{visibility}/{projection}`,
with `public` for an omitted visibility and `full` for an omitted projection. -/
theorem getWorksheets_request_url (params : Params) (credentials : Credentials)
    (http : HttpCollaborator) (id visibility projection : String)
    (hid : params.id = some id)
    (hvis : params.visibility = some visibility ∧ visibility ≠ "" ∨
      params.visibility = none ∧ visibility = "public")
    (hproj : params.projection = some projection ∧ projection ≠ "" ∨
      params.projection = none ∧ projection = "full") :
    (requestedUrls (getWorksheets params credentials http).events).head? =
      some (some ("https://spreadsheets.google.com/feeds/worksheets/" ++ id ++ "/"
        ++ visibility ++ "/" ++ projection)) := by
  rw [getWorksheets_requestedUrls,
    getWorksheetsParams_built params id visibility projection hid hvis hproj]
  rfl

/-- Instance of `getWorksheets_request_url` at the sample inputs. -/
theorem getWorksheets_request_url_witness :
    (requestedUrls (getWorksheets sampleParams sampleCredentials sampleHttp).events).head? =
      some (some "https://spreadsheets.google.com/feeds/worksheets/abc/public/basic") :=
  getWorksheets_request_url sampleParams sampleCredentials sampleHttp "abc" "public" "basic"
    rfl (Or.inr ⟨rfl, rfl⟩) (Or.inl ⟨rfl, by decide⟩)

/-! ## Link extraction -/

/-- C3: for every entry and every schema type, `getLinkByType` returns a URL
exactly when it is the href of the first link, in list order, whose rel equals
the type, and returns `undefined` exactly when no link of the entry has that
rel; in particular for each of the four schema constants. -/
theorem getLinkByType_first_match (entry : RawEntry) (type : String) :
    (∀ href : String, getLinkByType entry type = some href ↔
      ∃ (i : Nat) (l : Link), entry.link[i]? = some l ∧ l.rel = type ∧ l.href = href ∧
        ∀ (j : Nat) (l' : Link), j < i → entry.link[j]? = some l' → l'.rel ≠ type) ∧
    (getLinkByType entry type = none ↔ ∀ l ∈ entry.link, l.rel ≠ type) :=
  ⟨fun href => getLinkByTypeLoop_some type entry.link href,
   getLinkByTypeLoop_none type entry.link⟩

/-! ## Flattening -/

/-- C4: when the collaborator answers the request of `getCells` with a body in
which `feed`, its `updated`, `title`, `author` and `entry`, and the `name`,
`email`, `updated` and `gs$cell` of every author and entry are present,
`getCells` calls the callback once, without an error, with the record whose
`updated` and `title` are the feed's `$t` texts, whose `author` list is the
feed's author list mapped element by element to `{name.$t, email.$t}` and whose
`entry` list is the feed's entry list mapped element by element to
`{updated.$t, gs$cell.row, gs$cell.col, gs$cell.inputValue, gs$cell.$t}`;
both lists keep the length and the order of their source. -/
theorem getCells_delivers_record (params : Params) (credentials : Credentials)
    (http : HttpCollaborator) (results : Response) (feed : RawFeed)
    (updated title : TextNode) (authors : List RawAuthor) (entries : List RawEntry)
    (hreply : http (getCellsParams params) credentials = .success results)
    (hfeed : results.feed = some feed)
    (hupdated : feed.updated = some updated) (htitle : feed.title = some title)
    (hauthor : feed.author = some authors) (hentry : feed.entry = some entries)
    (hauthors : ∀ a ∈ authors, a.name ≠ none ∧ a.email ≠ none)
    (hentries : ∀ c ∈ entries, c.updated ≠ none ∧ c.gsCell ≠ none) :
    ∃ record : Feed,
      (getCells params credentials http).events =
        [.request (getCellsParams params) credentials, .callback none (some record)] ∧
      record.updated = updated.t ∧ record.title = title.t ∧
      record.author = authors.map
        (fun a => { name := a.name.bind TextNode.t, email := a.email.bind TextNode.t }) ∧
      record.entry = entries.map
        (fun c => { updated := c.updated.bind TextNode.t, row := c.gsCell.bind GsCell.row,
                    col := c.gsCell.bind GsCell.col,
                    inputValue := c.gsCell.bind GsCell.inputValue,
                    value := c.gsCell.bind GsCell.t }) ∧
      record.author.length = authors.length ∧ record.entry.length = entries.length := by
  have hr : readable results = true := by
    simp only [readable, hfeed, hupdated, htitle, hauthor, hentry, Option.isSome_some,
      Bool.true_and, Bool.and_eq_true, List.all_eq_true]
    refine ⟨fun a ha => ?_, fun c hc => ?_⟩
    · obtain ⟨hn, he⟩ := hauthors a ha
      simp [authorReadable, Option.isSome_iff_ne_none, hn, he]
    · obtain ⟨hu, hg⟩ := hentries c hc
      simp [cellReadable, Option.isSome_iff_ne_none, hu, hg]
  have hflat : flatten results = .ok (feedRecord feed) := by
    rw [flatten_eq results feed hfeed, if_pos hr]
  refine ⟨feedRecord feed, ?_, ?_, ?_, ?_, ?_, ?_, ?_⟩
  · rw [getCells_ok params credentials http results (feedRecord feed) hreply hflat]
  · simp [feedRecord, hupdated]
  · simp [feedRecord, htitle]
  · simp only [feedRecord, hauthor, Option.getD_some]
    rfl
  · simp only [feedRecord, hentry, Option.getD_some]
    rfl
  · simp [feedRecord, hauthor]
  · simp [feedRecord, hentry]

/-- Instance of `getCells_delivers_record` at the sample inputs. -/
theorem getCells_delivers_record_witness :
    ∃ record : Feed,
      (getCells sampleParams sampleCredentials (constHttp sampleCellFeed)).events =
        [.request (getCellsParams sampleParams) sampleCredentials,
         .callback none (some record)] ∧
      record.updated = some "2016-01-02T03:04:05Z" ∧ record.title = some "Sheet1" ∧
      record.author = [{ name := some "Ann", email := some "ann@example.org" }] ∧
      record.entry =
        [{ updated := some "2016-01-01", row := some "1", col := some "1",
           inputValue := some "=1+1", value := some "2" },
         { updated := some "2016-01-02", row := some "1", col := some "2",
           inputValue := some "x", value := some "x" }] ∧
      record.author.length = 1 ∧ record.entry.length = 2 :=
  getCells_delivers_record sampleParams sampleCredentials (constHttp sampleCellFeed)
    sampleCellFeed _ _ _ _ _ rfl rfl rfl rfl rfl rfl (by decide) (by decide)

/-! ## Aggregation -/

/-- C5: evaluation at a worksheet list with one worksheet that carries a
cell-feed link, served by a collaborator that has a well-formed cell feed at
that link. `getWorksheets` issues the list request and then raises a
`ReferenceError`: no cell feed is requested and the callback is never invoked.
With the name `getWorksheet` bound to `getCells`, the same body requests the
cell feed at the link and delivers the one flattened feed. -/
theorem getWorksheets_single_worksheet_raises :
    (getWorksheets sampleParams sampleCredentials sampleHttp).events =
      [.request (getWorksheetsParams sampleParams) sampleCredentials,
       .raise .referenceError] ∧
    (getWorksheetsIn [("getWorksheet", getCells)] sampleParams sampleCredentials
        sampleHttp).events =
      [.request (getWorksheetsParams sampleParams) sampleCredentials,
       .request { sampleParams with url := some "https://example.org/cells/1" }
         sampleCredentials,
       .callback none (some [some sampleFeedRecord])] := by
  decide

/-! ## Caller-supplied URL -/

/-- C6, as stated, fails for `getWorksheets`: with the url
`https://example.org/feed` supplied, the worksheet-list request goes to the
built worksheets URL and `params.url` is overwritten with it. -/
theorem getWorksheets_discards_supplied_url :
    sampleParamsWithUrl.url = some "https://example.org/feed" ∧
    requestedUrls (getWorksheets sampleParamsWithUrl sampleCredentials sampleHttp).events =
      [some "https://spreadsheets.google.com/feeds/worksheets/abc/public/basic"] ∧
    requestedUrls (getWorksheets sampleParamsWithUrl sampleCredentials sampleHttp).events ≠
      [sampleParamsWithUrl.url] ∧
    (getWorksheets sampleParamsWithUrl sampleCredentials sampleHttp).params.url ≠
      sampleParamsWithUrl.url := by
  decide

/-- C6, amended: when the caller supplies a non-empty url, `getCells` skips the
URL builder: its only request goes to exactly that url and `params` is left
unchanged, whatever id, worksheet, visibility and projection are.
`getWorksheets` has no such pass-through: its run is the same whatever url the
caller supplies. -/
theorem getCells_keeps_supplied_url (params : Params) (credentials : Credentials)
    (http : HttpCollaborator) (url : String)
    (hurl : params.url = some url) (hne : url ≠ "") :
    requestedUrls (getCells params credentials http).events = [some url] ∧
    (getCells params credentials http).params = params ∧
    ∀ other : Option String,
      (getWorksheets { params with url := other } credentials http).events =
        (getWorksheets params credentials http).events ∧
      (getWorksheets { params with url := other } credentials http).params =
        (getWorksheets params credentials http).params := by
  have ht : truthy params.url = true := by rw [hurl]; exact truthy_of_nonempty url hne
  refine ⟨?_, ?_, fun other => ?_⟩
  · rw [getCells_requestedUrls, getCellsParams_supplied params ht, hurl]
  · rw [getCells_params, getCellsParams_supplied params ht]
  · have : getWorksheetsParams { params with url := other } = getWorksheetsParams params := rfl
    simp only [getWorksheets, getWorksheetsIn, this, and_self]

/-- Instance of `getCells_keeps_supplied_url` at the sample inputs. -/
theorem getCells_keeps_supplied_url_witness :
    requestedUrls (getCells sampleParamsWithUrl sampleCredentials sampleHttp).events =
      [some "https://example.org/feed"] ∧
    (getCells sampleParamsWithUrl sampleCredentials sampleHttp).params = sampleParamsWithUrl ∧
    ∀ other : Option String,
      (getWorksheets { sampleParamsWithUrl with url := other } sampleCredentials
          sampleHttp).events =
        (getWorksheets sampleParamsWithUrl sampleCredentials sampleHttp).events ∧
      (getWorksheets { sampleParamsWithUrl with url := other } sampleCredentials
          sampleHttp).params =
        (getWorksheets sampleParamsWithUrl sampleCredentials sampleHttp).params :=
  getCells_keeps_supplied_url sampleParamsWithUrl sampleCredentials sampleHttp
    "https://example.org/feed" rfl (by decide)

/-! ## Errors -/

/-- C7: when the collaborator reports an error for the request of `getCells`
(of `getWorksheets`), the run is that request, the logging of the error and one
callback invocation with that same error and a null result, and nothing else:
no flattening, no further request, no partial result. -/
theorem transport_error_passes_through (params : Params) (credentials : Credentials)
    (http : HttpCollaborator) (error : HttpError) :
    (http (getCellsParams params) credentials = .failure error →
      (getCells params credentials http).events =
        [.request (getCellsParams params) credentials, .consoleError error,
         .callback (some error) none]) ∧
    (http (getWorksheetsParams params) credentials = .failure error →
      (getWorksheets params credentials http).events =
        [.request (getWorksheetsParams params) credentials, .consoleError error,
         .callback (some error) none]) := by
  constructor
  · intro h
    rw [getCells_failure params credentials http error h]
  · intro h
    rw [getWorksheets_failure params credentials http error h]

/-- Instance of `transport_error_passes_through` at the sample inputs. -/
theorem transport_error_passes_through_witness :
    (getCells sampleParams sampleCredentials failingHttp).events =
      [.request (getCellsParams sampleParams) sampleCredentials,
       .consoleError { message := "ECONNRESET" },
       .callback (some { message := "ECONNRESET" }) none] ∧
    (getWorksheets sampleParams sampleCredentials failingHttp).events =
      [.request (getWorksheetsParams sampleParams) sampleCredentials,
       .consoleError { message := "ECONNRESET" },
       .callback (some { message := "ECONNRESET" }) none] :=
  ⟨(transport_error_passes_through sampleParams sampleCredentials failingHttp
      { message := "ECONNRESET" }).1 rfl,
   (transport_error_passes_through sampleParams sampleCredentials failingHttp
      { message := "ECONNRESET" }).2 rfl⟩

/-- C8, as stated, fails: for a body without `feed.title` the run of `getCells`
ends in a `TypeError` and the callback is never invoked, so no error reaches
the callback's error channel; for a body whose cell has no `gs$cell.row` the
callback receives, without an error, a record whose `row` is `undefined`. -/
theorem getCells_missing_field_unreported :
    (getCells sampleParams sampleCredentials (constHttp cellFeedWithoutTitle)).events =
      [.request (getCellsParams sampleParams) sampleCredentials, .raise .typeError] ∧
    (getCells sampleParams sampleCredentials (constHttp cellFeedWithoutRow)).events =
      [.request (getCellsParams sampleParams) sampleCredentials,
       .callback none (some
         { updated := some "2016-01-02T03:04:05Z", title := some "Sheet1", author := [],
           entry := [{ updated := some "2016-01-01", row := none, col := some "1",
                       inputValue := some "x", value := some "x" }] })] := by
  decide

/-- C8, amended: for every successfully fetched body, `getCells` never passes an
error to the callback. When an object the flattening reads a property of is
absent (`feed`, `feed.updated`, `feed.title`, `feed.author`, `feed.entry`, an
author's `name` or `email`, an entry's `updated` or `gs$cell`), the run ends in
a `TypeError` and the callback is not invoked. Otherwise the callback receives,
without an error, the flattened record, in which an absent leaf (a `$t`, or the
`row`, `col` or `inputValue` of `gs$cell`) is `undefined`. -/
theorem getCells_missing_field_behaviour (params : Params) (credentials : Credentials)
    (http : HttpCollaborator) (results : Response)
    (hreply : http (getCellsParams params) credentials = .success results) :
    (readable results = false →
      (getCells params credentials http).events =
        [.request (getCellsParams params) credentials, .raise .typeError]) ∧
    (∀ feed, results.feed = some feed → readable results = true →
      (getCells params credentials http).events =
        [.request (getCellsParams params) credentials,
         .callback none (some (feedRecord feed))]) ∧
    (∀ (error : HttpError) (result : Option Feed),
      Event.callback (some error) result ∉ (getCells params credentials http).events) := by
  have hcases : flatten results = .error .typeError ∨
      ∃ feed, results.feed = some feed ∧ readable results = true ∧
        flatten results = .ok (feedRecord feed) := by
    cases hf : results.feed with
    | none => exact Or.inl (flatten_no_feed results hf)
    | some feed =>
      by_cases hr : readable results = true
      · exact Or.inr ⟨feed, rfl, hr, by rw [flatten_eq results feed hf, if_pos hr]⟩
      · exact Or.inl (by rw [flatten_eq results feed hf, if_neg hr])
  refine ⟨fun hr => ?_, fun feed hf hr => ?_, fun error result => ?_⟩
  · rcases hcases with h | ⟨_, _, hr', _⟩
    · rw [getCells_raise params credentials http results _ hreply h]
    · rw [hr] at hr'; cases hr'
  · rw [getCells_ok params credentials http results (feedRecord feed) hreply
      (by rw [flatten_eq results feed hf, if_pos hr])]
  · rcases hcases with h | ⟨feed, _, _, h⟩
    · rw [getCells_raise params credentials http results _ hreply h]
      simp
    · rw [getCells_ok params credentials http results _ hreply h]
      simp

/-- Instance of `getCells_missing_field_behaviour` at the sample inputs. -/
theorem getCells_missing_field_behaviour_witness :
    (getCells sampleParams sampleCredentials (constHttp cellFeedWithoutRow)).events =
      [.request (getCellsParams sampleParams) sampleCredentials,
       .callback none (some
         { updated := some "2016-01-02T03:04:05Z", title := some "Sheet1", author := [],
           entry := [{ updated := some "2016-01-01", row := none, col := some "1",
                       inputValue := some "x", value := some "x" }] })] :=
  (getCells_missing_field_behaviour sampleParams sampleCredentials
    (constHttp cellFeedWithoutRow) cellFeedWithoutRow rfl).2.1 _ rfl (by decide)

/-- C9, as stated, fails: for a worksheet list whose only entry has no
cell-feed link, the callback of `getWorksheets` is never invoked, so no
link-not-found error is delivered. -/
theorem getWorksheets_missing_link_unreported :
    getLinkByType entryWithoutCellLink CELL_FEED_SCHEMA = none ∧
    (getWorksheets sampleParams sampleCredentials
        (constHttp worksheetListWithoutCellLink)).events =
      [.request (getWorksheetsParams sampleParams) sampleCredentials,
       .raise .referenceError] ∧
    ∀ (error : Option HttpError) (result : Option (List (Option Feed))),
      Event.callback error result ∉
        (getWorksheets sampleParams sampleCredentials
          (constHttp worksheetListWithoutCellLink)).events := by
  have h : (getWorksheets sampleParams sampleCredentials
        (constHttp worksheetListWithoutCellLink)).events =
      [.request (getWorksheetsParams sampleParams) sampleCredentials,
       .raise .referenceError] := by decide
  refine ⟨by decide, h, fun error result => ?_⟩
  rw [h]
  simp

/-- C9, amended: for a worksheet entry with no link whose rel is the cell-feed
schema, link extraction yields `undefined`, not an error, and the copy of
params prepared for that entry is params with `url` undefined. The module has
no link-not-found error: `getCells`, called with such a copy, requests the URL
built from the copy's id and worksheet. -/
theorem missing_cell_link_gives_undefined_url (params : Params) (credentials : Credentials)
    (http : HttpCollaborator) (entry : RawEntry)
    (id worksheet visibility projection : String)
    (hlink : ∀ l ∈ entry.link, l.rel ≠ CELL_FEED_SCHEMA)
    (hid : params.id = some id) (hws : params.worksheet = some worksheet)
    (hvis : params.visibility = some visibility ∧ visibility ≠ "" ∨
      params.visibility = none ∧ visibility = "public")
    (hproj : params.projection = some projection ∧ projection ≠ "" ∨
      params.projection = none ∧ projection = "full") :
    getLinkByType entry CELL_FEED_SCHEMA = none ∧
    worksheetCopy params entry = { params with url := none } ∧
    requestedUrls (getCells (worksheetCopy params entry) credentials http).events =
      [some ("https://spreadsheets.google.com/feeds/cells/" ++ id ++ "/" ++ worksheet ++ "/"
        ++ visibility ++ "/" ++ projection)] := by
  have hnone : getLinkByType entry CELL_FEED_SCHEMA = none :=
    (getLinkByTypeLoop_none CELL_FEED_SCHEMA entry.link).mpr hlink
  have hcopy : worksheetCopy params entry = { params with url := none } := by
    simp [worksheetCopy, hnone]
  refine ⟨hnone, hcopy, ?_⟩
  rw [getCells_requestedUrls, hcopy,
    getCellsParams_built { params with url := none } id worksheet visibility projection
      rfl hid hws hvis hproj]

/-- Instance of `missing_cell_link_gives_undefined_url` at the sample inputs. -/
theorem missing_cell_link_gives_undefined_url_witness :
    getLinkByType entryWithoutCellLink CELL_FEED_SCHEMA = none ∧
    worksheetCopy (getWorksheetsParams sampleParams) entryWithoutCellLink =
      { getWorksheetsParams sampleParams with url := none } ∧
    requestedUrls (getCells (worksheetCopy (getWorksheetsParams sampleParams)
        entryWithoutCellLink) sampleCredentials sampleHttp).events =
      [some "https://spreadsheets.google.com/feeds/cells/abc/1/public/basic"] :=
  missing_cell_link_gives_undefined_url (getWorksheetsParams sampleParams) sampleCredentials
    sampleHttp entryWithoutCellLink "abc" "1" "public" "basic" (by decide) rfl rfl
    (Or.inr ⟨rfl, rfl⟩) (Or.inl ⟨rfl, by decide⟩)

/-- C10: the name `getWorksheet` called by the per-entry step is bound nowhere
in the module, so resolving it raises a `ReferenceError`. Hence, for every
successful worksheet-list response with a non-empty entry list, the run of
`getWorksheets` is the list request followed by that exception: nothing is
fetched and the callback is never invoked. Only for an empty entry list does
the callback receive a result, the empty list. -/
theorem getWorksheets_nonempty_raises (params : Params) (credentials : Credentials)
    (http : HttpCollaborator) (results : Response) (feed : RawFeed)
    (hreply : http (getWorksheetsParams params) credentials = .success results)
    (hfeed : results.feed = some feed) :
    "getWorksheet" ∉ declaredNames ∧
    resolveFetcher moduleScope "getWorksheet" = .error .referenceError ∧
    (feed.entry.getD [] ≠ [] →
      (getWorksheets params credentials http).events =
        [.request (getWorksheetsParams params) credentials, .raise .referenceError]) ∧
    (feed.entry.getD [] = [] →
      (getWorksheets params credentials http).events =
        [.request (getWorksheetsParams params) credentials, .callback none (some [])]) ∧
    (∀ (error : Option HttpError) (feeds : List (Option Feed)),
      Event.callback error (some feeds) ∈ (getWorksheets params credentials http).events →
        error = none ∧ feeds = [] ∧ feed.entry.getD [] = []) := by
  have hne : feed.entry.getD [] ≠ [] →
      (getWorksheets params credentials http).events =
        [.request (getWorksheetsParams params) credentials, .raise .referenceError] := by
    intro he
    cases hfe : feed.entry with
    | none => rw [hfe] at he; exact absurd rfl he
    | some es =>
      cases es with
      | nil => rw [hfe] at he; exact absurd rfl he
      | cons entry rest =>
        rw [getWorksheets_some_entry params credentials http results feed entry rest hreply
          hfeed hfe]
  have hem : feed.entry.getD [] = [] →
      (getWorksheets params credentials http).events =
        [.request (getWorksheetsParams params) credentials, .callback none (some [])] := by
    intro he
    rw [getWorksheets_no_entries params credentials http results feed hreply hfeed he]
  refine ⟨by decide, resolveFetcher_getWorksheet, hne, hem, ?_⟩
  intro error feeds hmem
  by_cases he : feed.entry.getD [] = []
  · rw [hem he] at hmem
    simp at hmem
    exact ⟨hmem.1, hmem.2, he⟩
  · rw [hne he] at hmem
    simp at hmem

/-- Instance of `getWorksheets_nonempty_raises` at the sample inputs. -/
theorem getWorksheets_nonempty_raises_witness :
    (getWorksheets sampleParams sampleCredentials sampleHttp).events =
      [.request (getWorksheetsParams sampleParams) sampleCredentials,
       .raise .referenceError] :=
  (getWorksheets_nonempty_raises sampleParams sampleCredentials sampleHttp
    sampleWorksheetList _ (by decide) rfl).2.2.1 (by decide)

end SpasSpreadsheets
